import Mathlib

/-!
Shallow Lean embedding of the internal-operations dashboard client
(authentication session lifecycle in `src/contexts/AuthContext.tsx`,
HR data sections in `src/components/HR.tsx`, IT data sections in the
IT module file).

Modelling conventions:
* Browser `localStorage` is a pair of optional string keys
  (`userToken`, `userData`); `getItem` returning `null` is `none`.
* JavaScript string truthiness (`!!s`) is "present and non-empty".
* A network interaction is a value of `Net β`: `err` models a rejected
  `fetch` (network failure), `resp ok body` models a settled response
  with HTTP success flag `ok`; `body = none` models `response.json()`
  throwing (parse failure), `body = some b` the parsed JSON fields.
* Functions that the code exposes as async handlers are modelled as
  pure state transformers; the `try`/`catch` wrappers of the source
  make every handler total, which the totality of these Lean
  functions mirrors (no exception escapes to the caller).
* Machine numbers are `Nat`/`Int`; date arithmetic is exact here
  (all values involved are exactly representable, so IEEE doubles in
  the source compute the same results).
-/

/-- Whitespace per the JavaScript `\s` character class (as used by the
`trim`/regex operations in the source). -/
def isJsSpace (c : Char) : Bool :=
  c == ' ' || c == '\t' || c == '\n' || c == '\r' ||
  c == '\x0b' || c == '\x0c' ||
  c.val == 0xa0 || c.val == 0x1680 ||
  (0x2000 ≤ c.val && c.val ≤ 0x200a) ||
  c.val == 0x2028 || c.val == 0x2029 || c.val == 0x202f ||
  c.val == 0x205f || c.val == 0x3000 || c.val == 0xfeff

/-- JavaScript `String.prototype.trim`. -/
def jsTrim (s : String) : String :=
  String.mk (((s.toList.dropWhile isJsSpace).reverse.dropWhile isJsSpace).reverse)

/-- JavaScript `s.toLowerCase()` (ASCII range; all strings compared by the
source are ASCII). -/
def jsLower (s : String) : String :=
  String.mk (s.toList.map Char.toLower)

/-- JavaScript `s.charAt(0).toUpperCase() + s.slice(1)` — the first-letter
title-casing used for status enums in `HR.tsx`. -/
def jsUpperFirst (s : String) : String :=
  match s.toList with
  | [] => ""
  | c :: rest => String.mk (c.toUpper :: rest)

/-- Helper for `jsIncludes`: does `needle` occur at the head of `hay`? -/
def headMatch : List Char → List Char → Bool
  | [], _ => true
  | _ :: _, [] => false
  | a :: as, b :: bs => a == b && headMatch as bs

/-- Helper for `jsIncludes`: does `needle` occur anywhere in `hay`? -/
def occursIn (needle : List Char) : List Char → Bool
  | [] => headMatch needle []
  | c :: rest => headMatch needle (c :: rest) || occursIn needle rest

/-- JavaScript `hay.includes(sub)`. -/
def jsIncludes (hay sub : String) : Bool :=
  occursIn sub.toList hay.toList

/-- A settled network interaction, as seen by one `fetch` call site:
`err` = the fetch promise rejected; `resp ok body` = a response whose
`ok` flag is `ok` and whose parsed JSON body is `body` (`none` when
`response.json()` itself throws). -/
inductive Net (β : Type) where
  | err : Net β
  | resp (ok : Bool) (body : Option β) : Net β
deriving DecidableEq

/-- Parsed fields of an auth endpoint response body: `data.token` and
`data.user?.email` (`none` when the field / the `user` object is absent). -/
structure AuthBody where
  token : Option String
  userEmail : Option String
deriving DecidableEq

/-- The two persisted `localStorage` keys used by `AuthContext.tsx`. -/
structure Storage where
  userToken : Option String
  userData : Option String
deriving DecidableEq

/-- The user record kept in React state and (JSON-encoded) in storage. -/
structure UserRec where
  email : String
deriving DecidableEq

/-- Client session state: the two persisted keys plus the React state
`isAuthenticated` / `user` owned by `AuthProvider`. -/
structure World where
  storage : Storage
  isAuthenticated : Bool
  user : Option UserRec
deriving DecidableEq

/-- JavaScript truthiness of a `localStorage.getItem` result: the key is
present and the stored string is non-empty. -/
def presentNE : Option String → Bool
  | some s => !s.isEmpty
  | none => false

/-- `JSON.stringify({ email })` for the user record persisted by the auth
provider. -/
def encodeUserData (email : String) : String :=
  "\x7b\"email\":\"" ++ email ++ "\"\x7d"

/-- `JSON.parse` specialised to the `{email}` record shape this client
itself writes; any other string yields `none`, which also models the
source's `catch { return null }` on malformed JSON. -/
def parseUserData (s : String) : Option UserRec :=
  let pre := "\x7b\"email\":\"".toList
  let suf := "\"\x7d".toList
  let l := s.toList
  if pre.length + suf.length ≤ l.length
      && l.take pre.length == pre
      && l.drop (l.length - suf.length) == suf
      && ((l.drop pre.length).take (l.length - pre.length - suf.length)).all
          (fun c => c != '"')
  then some ⟨String.mk ((l.drop pre.length).take (l.length - pre.length - suf.length))⟩
  else none

/-- `localStorage.setItem('userToken', token)` with `token = data.token`:
an absent JSON field is `undefined`, which `setItem` coerces to the
string `"undefined"`. -/
def storedToken : Option String → String
  | some t => t
  | none => "undefined"

/-- `data.user?.email || email`: the response email unless it is absent or
empty, in which case the submitted email. -/
def effEmail : Option String → String → String
  | some u, e => if u = "" then e else u
  | none, e => e

/-- Split a character list at every occurrence of `sep` (the pieces, in
order, with separators removed — the semantics of `s.split('@')`). -/
def splitChar (sep : Char) : List Char → List (List Char)
  | [] => [[]]
  | c :: rest =>
    let r := splitChar sep rest
    if c == sep then [] :: r
    else
      match r with
      | [] => [[c]]
      | h :: t => (c :: h) :: t

/-- The email shape check `/^[^\s@]+@[^\s@]+\.[^\s@]+$/` from
`AuthContext.tsx`: exactly one `@`, a non-empty space-free local part,
and a space-free domain containing a `.` that is neither its first nor
its last character. -/
def emailRegexOk (s : String) : Bool :=
  match splitChar '@' s.toList with
  | [loc, dom] =>
      !loc.isEmpty && loc.all (fun c => !isJsSpace c) &&
      !dom.isEmpty && dom.all (fun c => !isJsSpace c) &&
      ((dom.drop 1).dropLast.contains '.')
  | _ => false

/-- `/[A-Z]/.test password`. -/
def hasUpper (p : String) : Bool := p.toList.any (fun c => 'A' ≤ c && c ≤ 'Z')

/-- `/[a-z]/.test password`. -/
def hasLower (p : String) : Bool := p.toList.any (fun c => 'a' ≤ c && c ≤ 'z')

/-- `/[0-9]/.test password`. -/
def hasDigit (p : String) : Bool := p.toList.any (fun c => '0' ≤ c && c ≤ '9')

/-- Result of an auth handler call: the returned boolean, the session
state afterwards, and how many network requests were issued. -/
structure AuthResult where
  ret : Bool
  world : World
  requests : Nat
deriving DecidableEq

/-- The `login` handler of `AuthContext.tsx` (lines 49–98): client-side
validation, `POST /api/auth/login`, then persistence of the token and
the `{email}` record and the flip to authenticated. -/
def login (email password : String) (net : Net AuthBody) (w : World) : AuthResult :=
  if email = "" ∨ password = "" then ⟨false, w, 0⟩
  else if ¬ emailRegexOk email then ⟨false, w, 0⟩
  else
    match net with
    | .err => ⟨false, w, 1⟩
    | .resp ok body =>
      if ¬ ok then ⟨false, w, 1⟩
      else
        match body with
        | none => ⟨false, w, 1⟩
        | some b =>
          let tok := storedToken b.token
          let em := effEmail b.userEmail email
          ⟨true, ⟨⟨some tok, some (encodeUserData em)⟩, true, some ⟨em⟩⟩, 1⟩

/-- The `signup` handler of `AuthContext.tsx` (lines 106–188): validation
(including the password policy), `POST /api/auth/register`, then a second
`POST /api/auth/login`; only after both succeed is the session persisted.
The persisted email comes from the register response (`data.user?.email ||
email`), the token from the login response. -/
def signup (email password : String) (netReg netLogin : Net AuthBody)
    (w : World) : AuthResult :=
  if email = "" ∨ password = "" then ⟨false, w, 0⟩
  else if ¬ emailRegexOk email then ⟨false, w, 0⟩
  else if password.length < 8 then ⟨false, w, 0⟩
  else if ¬ hasUpper password ∨ ¬ hasLower password ∨ ¬ hasDigit password then
    ⟨false, w, 0⟩
  else
    match netReg with
    | .err => ⟨false, w, 1⟩
    | .resp ok regBody =>
      if ¬ ok then ⟨false, w, 1⟩
      else
        match regBody with
        | none => ⟨false, w, 1⟩
        | some rb =>
          let em := effEmail rb.userEmail email
          match netLogin with
          | .err => ⟨false, w, 2⟩
          | .resp lok lbody =>
            if ¬ lok then ⟨false, w, 2⟩
            else
              match lbody with
              | none => ⟨false, w, 2⟩
              | some lb =>
                ⟨true,
                 ⟨⟨some (storedToken lb.token), some (encodeUserData em)⟩,
                  true, some ⟨em⟩⟩, 2⟩

/-- The `logout` handler: removes both keys and resets state. -/
def logout (_w : World) : World := ⟨⟨none, none⟩, false, none⟩

/-- Initial React state of `AuthProvider` (lines 24–41), derived from
whatever is persisted when the provider mounts. -/
def initWorld (st : Storage) : World :=
  ⟨st,
   presentNE st.userToken && presentNE st.userData,
   match st.userData with
   | some s => if s.isEmpty then none else parseUserData s
   | none => none⟩

/-- The testing-account credential pair carried by the `authentication`
module descriptor of the loaded configuration. -/
structure TestAccount where
  email : String
  password : String
deriving DecidableEq

/-- The one-shot `autoLogin` effect (lines 201–251): skipped when a
session is already persisted; otherwise, if the configuration yields a
testing account with truthy email and password, attempts a login with it
and persists the session only on success.  `cfg = none` covers both a
failing `loadConfig()` and a configuration without a testing account. -/
def autoLogin (cfg : Option TestAccount) (net : Net AuthBody) (w : World) : World :=
  if presentNE w.storage.userToken && presentNE w.storage.userData then w
  else
    match cfg with
    | none => w
    | some acct =>
      if acct.email = "" ∨ acct.password = "" then w
      else
        match net with
        | .err => w
        | .resp ok body =>
          if ¬ ok then w
          else
            match body with
            | none => w
            | some b =>
              let em := effEmail b.userEmail acct.email
              ⟨⟨some (storedToken b.token), some (encodeUserData em)⟩,
               true, some ⟨em⟩⟩

/-- The `storage` event handler (lines 254–274): recomputes
`isAuthenticated` and `user` from the persisted keys. -/
def handleStorageChange (w : World) : World :=
  let authenticated := presentNE w.storage.userToken && presentNE w.storage.userData
  ⟨w.storage,
   authenticated,
   if authenticated && presentNE w.storage.userData then
     match w.storage.userData with
     | some s => parseUserData s
     | none => none
   else none⟩

/-- The session invariant stated by the spec: authenticated exactly when
both persisted keys are present and non-empty. -/
def sessionInv (w : World) : Prop :=
  w.isAuthenticated = (presentNE w.storage.userToken && presentNE w.storage.userData)

instance (w : World) : Decidable (sessionInv w) := by
  unfold sessionInv; infer_instance

/-- A network interaction never hands a success path an empty-string
token (`data.token === ""` is the one body shape that breaks the
session invariant, since `setItem` stores it as an empty value). -/
def tokenOkNet (net : Net AuthBody) : Prop :=
  ∀ b, net = .resp true (some b) → b.token ≠ some ""

/-- Client-side validation of `login` succeeds. -/
def loginClientOk (e p : String) : Prop :=
  ¬ (e = "" ∨ p = "") ∧ emailRegexOk e = true

instance (e p : String) : Decidable (loginClientOk e p) := by
  unfold loginClientOk; infer_instance

/-- Client-side validation of `signup` succeeds (email shape plus the
password policy). -/
def signupClientOk (e p : String) : Prop :=
  loginClientOk e p ∧ ¬ p.length < 8 ∧
  ¬ (¬ hasUpper p ∨ ¬ hasLower p ∨ ¬ hasDigit p)

instance (e p : String) : Decidable (signupClientOk e p) := by
  unfold signupClientOk; infer_instance

/-! ## Data-section model (`HR.tsx` and the IT module) -/

/-- Decimal digit value of an ASCII digit character. -/
def digitVal (c : Char) : Nat := c.toNat - 48

/-- Leap year in the proleptic Gregorian calendar (as used by ECMAScript
`Date` UTC arithmetic). -/
def isLeapYear (y : Nat) : Bool :=
  y % 4 == 0 && (y % 100 != 0 || y % 400 == 0)

/-- Number of days of month `m` in year `y`. -/
def daysInMonth (y m : Nat) : Nat :=
  if m = 2 then (if isLeapYear y then 29 else 28)
  else if m = 4 ∨ m = 6 ∨ m = 9 ∨ m = 11 then 30
  else 31

/-- Day count of a civil date from a fixed origin (proleptic Gregorian,
valid for years ≥ 1); differences of this function are exact calendar-day
differences. -/
def civilDays (y m d : Nat) : Nat :=
  let ym := if m ≤ 2 then y - 1 else y
  let moff := if m ≤ 2 then m + 9 else m - 3
  365 * ym + ym / 4 - ym / 100 + ym / 400 + (153 * moff + 2) / 5 + d

/-- Parse a `YYYY-MM-DD` string the way `new Date(s)` accepts a date-only
ISO form (month/day range-checked; anything else is an invalid date). -/
def parseIsoDate (s : String) : Option (Nat × Nat × Nat) :=
  match s.toList with
  | [y1, y2, y3, y4, c1, m1, m2, c2, d1, d2] =>
    if c1 == '-' && c2 == '-' &&
        y1.isDigit && y2.isDigit && y3.isDigit && y4.isDigit &&
        m1.isDigit && m2.isDigit && d1.isDigit && d2.isDigit then
      let y := 1000 * digitVal y1 + 100 * digitVal y2 + 10 * digitVal y3 + digitVal y4
      let m := 10 * digitVal m1 + digitVal m2
      let d := 10 * digitVal d1 + digitVal d2
      if 1 ≤ m && m ≤ 12 && 1 ≤ d && d ≤ daysInMonth y m && 1 ≤ y then
        some (y, m, d)
      else none
    else none
  | _ => none

/-- `new Date(s).getTime()` for a date-only ISO string: milliseconds since
the Unix epoch at UTC midnight of that date; `none` models `NaN` (an
unparseable date). -/
def dateMs (s : String) : Option Int :=
  (parseIsoDate s).map
    (fun yd => 86400000 * ((civilDays yd.1 yd.2.1 yd.2.2 : Int) - (civilDays 1970 1 1 : Int)))

/-- `Math.round (a / b)` for integer `a` and positive integer `b`:
`Math.round x = ⌊x + 1/2⌋`, and for a positive divisor the floor of the
rational `(2a + b) / 2b` is its Euclidean quotient. -/
def mathRoundDiv (a b : Int) : Int := (2 * a + b) / (2 * b)

/-- Raw employee row returned by `GET/POST /api/hr/employees`.  `hiredAt`
is optional: the source guards it with `row.hiredAt?.slice(0,10) ?? ''`. -/
structure EmployeeApiRow where
  id : Nat
  firstName : String
  lastName : String
  email : String
  department : String
  position : String
  status : String
  hiredAt : Option String
deriving DecidableEq

/-- Display row of the employee table. -/
structure EmployeeView where
  id : Nat
  name : String
  department : String
  position : String
  email : String
  status : String
  joinDate : String
deriving DecidableEq

/-- The row-mapping lambda of the employee list load (`HR.tsx` 163–171). -/
def mapEmployee (r : EmployeeApiRow) : EmployeeView :=
  ⟨r.id,
   r.firstName ++ " " ++ r.lastName,
   r.department,
   r.position,
   r.email,
   jsUpperFirst r.status,
   (r.hiredAt.map (fun s => s.take 10)).getD ""⟩

/-- The (textually duplicated) row mapping in the employee create handler
(`HR.tsx` 241–249). -/
def mapEmployeeCreated (r : EmployeeApiRow) : EmployeeView :=
  ⟨r.id,
   r.firstName ++ " " ++ r.lastName,
   r.department,
   r.position,
   r.email,
   jsUpperFirst r.status,
   (r.hiredAt.map (fun s => s.take 10)).getD ""⟩

/-- Raw benefit row (`isActive` arrives as number or boolean; both are
used only through truthiness, modelled as `Bool`). -/
structure BenefitApiRow where
  id : Nat
  name : String
  type : String
  description : Option String
  isActive : Bool
deriving DecidableEq

/-- Display card of the benefits grid. -/
structure BenefitView where
  id : Nat
  name : String
  type : String
  coverage : String
  employees : Option Nat
  cost : Option String
deriving DecidableEq

/-- Row mapping of the benefits load (`HR.tsx` 523–530). -/
def mapBenefit (r : BenefitApiRow) : BenefitView :=
  ⟨r.id, r.name, r.type, r.description.getD "N/A", none,
   some (if r.isActive then "Active" else "Inactive")⟩

/-- Raw onboarding row. -/
structure OnboardingApiRow where
  id : Nat
  employeeId : Nat
  position : String
  status : String
  startedAt : Option String
  completedAt : Option String
deriving DecidableEq

/-- Display card of the onboarding list. -/
structure OnboardingView where
  id : Nat
  employee : String
  position : String
  startDate : String
  status : String
  progress : Nat
deriving DecidableEq

/-- Row mapping of the onboarding load (`HR.tsx` 778–800): statuses are
mapped through an explicit table, not first-letter title-casing. -/
def mapOnboarding (r : OnboardingApiRow) : OnboardingView :=
  ⟨r.id,
   "Employee #" ++ toString r.employeeId,
   r.position,
   (r.startedAt.map (fun s => s.take 10)).getD "Not started",
   if r.status = "completed" then "Completed"
   else if r.status = "in_progress" then "In Progress"
   else if r.status = "not_started" then "Pending"
   else r.status,
   if r.status = "completed" then 100
   else if r.status = "not_started" then 0
   else if r.status = "in_progress" then 50
   else 25⟩

/-- Raw job-posting row. -/
structure JobPostingApiRow where
  id : Nat
  title : String
  department : String
  status : String
  location : Option String
  createdAt : String
  updatedAt : String
deriving DecidableEq

/-- Display card of the recruitment list. -/
structure JobPostingView where
  id : Nat
  title : String
  department : String
  applicants : Option Nat
  status : String
  postedDate : String
deriving DecidableEq

/-- Row mapping of the recruitment load (`HR.tsx` 1079–1086). -/
def mapJobPosting (r : JobPostingApiRow) : JobPostingView :=
  ⟨r.id, r.title, r.department, none, jsUpperFirst r.status, r.createdAt.take 10⟩

/-- Raw absence row. -/
structure AbsenceApiRow where
  id : Nat
  employeeId : Nat
  type : String
  status : String
  startDate : String
  endDate : String
  createdAt : String
  updatedAt : String
deriving DecidableEq

/-- Display card of the absence list.  `days = none` models the `NaN`
that the source's arithmetic produces on an unparseable date. -/
structure AbsenceView where
  id : Nat
  employee : String
  type : String
  startDate : String
  endDate : String
  days : Option Int
  status : String
deriving DecidableEq

/-- Row mapping of the absence load (`HR.tsx` 1340–1355), including the
inclusive day count `Math.max(1, Math.round(diffMs / 86400000) + 1)`. -/
def mapAbsence (r : AbsenceApiRow) : AbsenceView :=
  ⟨r.id,
   "Employee #" ++ toString r.employeeId,
   jsUpperFirst r.type,
   r.startDate.take 10,
   r.endDate.take 10,
   (match dateMs r.startDate, dateMs r.endDate with
    | some a, some b => some (max 1 (mathRoundDiv (b - a) 86400000 + 1))
    | _, _ => none),
   jsUpperFirst r.status⟩

/-- The (textually duplicated) row mapping in the absence create handler
(`HR.tsx` 1421–1433). -/
def mapAbsenceCreated (r : AbsenceApiRow) : AbsenceView :=
  ⟨r.id,
   "Employee #" ++ toString r.employeeId,
   jsUpperFirst r.type,
   r.startDate.take 10,
   r.endDate.take 10,
   (match dateMs r.startDate, dateMs r.endDate with
    | some a, some b => some (max 1 (mathRoundDiv (b - a) 86400000 + 1))
    | _, _ => none),
   jsUpperFirst r.status⟩

/-- Raw IT device row; its display row keeps the same fields. -/
structure ItDeviceApiRow where
  id : Nat
  label : String
  owner : String
  type : String
  status : String
deriving DecidableEq

/-- Row mapping of the devices load (field-by-field copy). -/
def mapDevice (r : ItDeviceApiRow) : ItDeviceApiRow :=
  ⟨r.id, r.label, r.owner, r.type, r.status⟩

/-- Raw IT ticket row; its display row keeps the same fields. -/
structure ItTicketApiRow where
  id : Nat
  title : String
  owner : String
  status : String
  priority : String
deriving DecidableEq

/-- Row mapping of the tickets load (field-by-field copy). -/
def mapTicket (r : ItTicketApiRow) : ItTicketApiRow :=
  ⟨r.id, r.title, r.owner, r.status, r.priority⟩

/-- The (textually duplicated) row mapping in the ticket create handler. -/
def mapTicketCreated (r : ItTicketApiRow) : ItTicketApiRow :=
  ⟨r.id, r.title, r.owner, r.status, r.priority⟩

/-- Payload of `GET /api/it/overview`. -/
structure ItOverviewApi where
  managedDevices : Nat
  openTickets : Nat
deriving DecidableEq

/-- Why a section's list fetch failed: non-2xx status, JSON parse error,
network rejection, or the abort triggered by unmount. -/
inductive FetchFail where
  | http
  | parse
  | net
  | abort
deriving DecidableEq

/-- Outcome of one list fetch, as seen by a section's `load`. -/
inductive LoadOut (ρ : Type) where
  | ok (payload : ρ)
  | fail (k : FetchFail)
deriving DecidableEq

/-- Section state after `load` settles: the mapped data (`none` when the
fetch did not succeed and the initial state is untouched), the
user-facing error, and the loading flag (reset in `finally`). -/
structure LoadResult (ν : Type) where
  data : Option ν
  error : Option String
  loading : Bool
deriving DecidableEq

/-- The shared shape of every section `load` in `HR.tsx` and the IT
module: map the payload on success; on failure set the section's generic
message unless the failure is the unmount abort, which is silent. -/
def genericLoad {ρ ν : Type} (f : ρ → ν) (msg : String) (o : LoadOut ρ) : LoadResult ν :=
  match o with
  | .ok p => ⟨some (f p), none, false⟩
  | .fail k => if k = .abort then ⟨none, none, false⟩ else ⟨none, some msg, false⟩

/-- Employee-section load (`HR.tsx` 156–184). -/
def employeesLoad (o : LoadOut (List EmployeeApiRow)) : LoadResult (List EmployeeView) :=
  genericLoad (List.map mapEmployee) "Unable to load employees. Please try again later." o

/-- Benefits-section load. -/
def benefitsLoad (o : LoadOut (List BenefitApiRow)) : LoadResult (List BenefitView) :=
  genericLoad (List.map mapBenefit) "Unable to load benefits. Please try again later." o

/-- Onboarding-section load. -/
def onboardingLoad (o : LoadOut (List OnboardingApiRow)) : LoadResult (List OnboardingView) :=
  genericLoad (List.map mapOnboarding) "Unable to load onboarding data. Please try again later." o

/-- Recruitment-section load. -/
def recruitmentLoad (o : LoadOut (List JobPostingApiRow)) : LoadResult (List JobPostingView) :=
  genericLoad (List.map mapJobPosting) "Unable to load job postings. Please try again later." o

/-- Absence-section load. -/
def absencesLoad (o : LoadOut (List AbsenceApiRow)) : LoadResult (List AbsenceView) :=
  genericLoad (List.map mapAbsence) "Unable to load absences. Please try again later." o

/-- IT overview load. -/
def itOverviewLoad (o : LoadOut ItOverviewApi) : LoadResult ItOverviewApi :=
  genericLoad (fun x => x) "Unable to load IT overview. Please try again later." o

/-- IT devices load. -/
def devicesLoad (o : LoadOut (List ItDeviceApiRow)) : LoadResult (List ItDeviceApiRow) :=
  genericLoad (List.map mapDevice) "Unable to load devices. Please try again later." o

/-- IT tickets load. -/
def ticketsLoad (o : LoadOut (List ItTicketApiRow)) : LoadResult (List ItTicketApiRow) :=
  genericLoad (List.map mapTicket) "Unable to load tickets. Please try again later." o

/-- Consume leading decimal digits. -/
def dropDigits : List Char → List Char := List.dropWhile Char.isDigit

/-- After an optional leading sign: `Infinity`, or a decimal literal
`digits [. digits] [exp]` / `. digits [exp]` with `exp = (e|E) sign?
digits`. -/
def decimalTail (l : List Char) : Bool :=
  if l == "Infinity".toList then true
  else
    let afterInt :=
      match l with
      | c :: rest => if c.isDigit then some (dropDigits rest) else none
      | [] => none
    let afterFrac :=
      match afterInt with
      | some ('.' :: rest) => some (dropDigits rest)
      | some rest => some rest
      | none =>
        match l with
        | '.' :: c :: rest => if c.isDigit then some (dropDigits rest) else none
        | _ => none
    match afterFrac with
    | none => false
    | some [] => true
    | some (e :: rest) =>
      (e == 'e' || e == 'E') &&
      (match rest with
       | s :: c :: rest2 =>
         if s == '+' || s == '-' then c.isDigit && (dropDigits rest2).isEmpty
         else s.isDigit && (dropDigits (c :: rest2)).isEmpty
       | [c] => c.isDigit
       | [] => false)

/-- `Number.isNaN(Number(s))` for a string `s`: `Number` trims whitespace,
maps the empty string to `0`, and otherwise accepts a signed decimal
literal, `Infinity`, or an unsigned `0x`/`0o`/`0b` integer literal. -/
def jsNumberIsNaN (s : String) : Bool :=
  let t := (jsTrim s).toList
  if t.isEmpty then false
  else
    let numeric :=
      match t with
      | '+' :: rest => decimalTail rest
      | '-' :: rest => decimalTail rest
      | '0' :: x :: rest =>
        if x == 'x' || x == 'X' then !rest.isEmpty && rest.all (fun c => c.isDigit || ('a' ≤ c && c ≤ 'f') || ('A' ≤ c && c ≤ 'F'))
        else if x == 'o' || x == 'O' then !rest.isEmpty && rest.all (fun c => '0' ≤ c && c ≤ '7')
        else if x == 'b' || x == 'B' then !rest.isEmpty && rest.all (fun c => c == '0' || c == '1')
        else decimalTail t
      | _ => decimalTail t
    !numeric

/-- Section state after a create submit settles: the in-memory list, the
form error, whether the add modal is open, and how many network requests
the submit issued. -/
structure SubmitResult (ν : Type) where
  rows : List ν
  formError : Option String
  isAddOpen : Bool
  requests : Nat
deriving DecidableEq

/-- The shared shape of every section `handleSubmit`: if the issue list is
non-empty, join it with `", "`, show it, and stop before any request;
otherwise POST once and, on a successful enveloped row, append the mapped
row and close the modal; any failure shows the section's retry message
and keeps the modal open. -/
def genericSubmit {ρ ν : Type} (issues : List String) (f : ρ → ν) (failMsg : String)
    (net : Net ρ) (rows : List ν) : SubmitResult ν :=
  if issues ≠ [] then ⟨rows, some (String.intercalate ", " issues), true, 0⟩
  else
    match net with
    | .err => ⟨rows, some failMsg, true, 1⟩
    | .resp ok body =>
      if ¬ ok then ⟨rows, some failMsg, true, 1⟩
      else
        match body with
        | none => ⟨rows, some failMsg, true, 1⟩
        | some r => ⟨rows ++ [f r], none, false, 1⟩

/-- Draft values of the add-employee form. -/
structure EmployeeForm where
  firstName : String
  lastName : String
  email : String
  department : String
  position : String
  status : String
  hiredAt : String
deriving DecidableEq

/-- Required-field issues of the add-employee form (`HR.tsx` 204–209),
in push order. -/
def employeeIssues (fv : EmployeeForm) : List String :=
  (if (jsTrim fv.firstName).isEmpty then ["First name is required"] else []) ++
  (if (jsTrim fv.lastName).isEmpty then ["Last name is required"] else []) ++
  (if (jsTrim fv.email).isEmpty then ["Email is required"] else []) ++
  (if (jsTrim fv.department).isEmpty then ["Department is required"] else []) ++
  (if (jsTrim fv.position).isEmpty then ["Position is required"] else [])

/-- Employee-section submit (`HR.tsx` 200–258). -/
def employeesSubmit (fv : EmployeeForm) (net : Net EmployeeApiRow)
    (rows : List EmployeeView) : SubmitResult EmployeeView :=
  genericSubmit (employeeIssues fv) mapEmployeeCreated
    "Unable to create employee. Please try again." net rows

/-- Draft values of the add-benefit form. -/
structure BenefitForm where
  name : String
  type : String
  description : String
  isActive : Bool
deriving DecidableEq

/-- Required-field issues of the add-benefit form. -/
def benefitIssues (fv : BenefitForm) : List String :=
  (if (jsTrim fv.name).isEmpty then ["Name is required"] else []) ++
  (if (jsTrim fv.type).isEmpty then ["Type is required"] else [])

/-- Benefits-section submit. -/
def benefitsSubmit (fv : BenefitForm) (net : Net BenefitApiRow)
    (rows : List BenefitView) : SubmitResult BenefitView :=
  genericSubmit (benefitIssues fv) mapBenefit
    "Unable to create benefit. Please try again." net rows

/-- Draft values of the new-onboarding form. -/
structure OnboardingForm where
  employeeId : String
  position : String
  status : String
  startedAt : String
deriving DecidableEq

/-- Required-field issues of the new-onboarding form (`HR.tsx` 830–834). -/
def onboardingIssues (fv : OnboardingForm) : List String :=
  (if (jsTrim fv.employeeId).isEmpty ∨ jsNumberIsNaN fv.employeeId then
     ["Valid employee ID is required"] else []) ++
  (if (jsTrim fv.position).isEmpty then ["Position is required"] else [])

/-- Onboarding-section submit. -/
def onboardingSubmit (fv : OnboardingForm) (net : Net OnboardingApiRow)
    (rows : List OnboardingView) : SubmitResult OnboardingView :=
  genericSubmit (onboardingIssues fv) mapOnboarding
    "Unable to create onboarding flow. Please try again." net rows

/-- Draft values of the new-job form. -/
structure JobPostingForm where
  title : String
  department : String
  status : String
  location : String
deriving DecidableEq

/-- Required-field issues of the new-job form. -/
def jobPostingIssues (fv : JobPostingForm) : List String :=
  (if (jsTrim fv.title).isEmpty then ["Title is required"] else []) ++
  (if (jsTrim fv.department).isEmpty then ["Department is required"] else [])

/-- Recruitment-section submit. -/
def recruitmentSubmit (fv : JobPostingForm) (net : Net JobPostingApiRow)
    (rows : List JobPostingView) : SubmitResult JobPostingView :=
  genericSubmit (jobPostingIssues fv) mapJobPosting
    "Unable to create job posting. Please try again." net rows

/-- Draft values of the new-leave-request form. -/
structure AbsenceForm where
  employeeId : String
  type : String
  status : String
  startDate : String
  endDate : String
deriving DecidableEq

/-- Required-field issues of the new-leave-request form (`HR.tsx`
1386–1391).  Note: the employee ID is checked after trimming, but the two
date fields only for truthiness (`!formValues.startDate`), i.e. for the
exact empty string. -/
def absenceIssues (fv : AbsenceForm) : List String :=
  (if (jsTrim fv.employeeId).isEmpty ∨ jsNumberIsNaN fv.employeeId then
     ["Valid employee ID is required"] else []) ++
  (if fv.startDate = "" then ["Start date is required"] else []) ++
  (if fv.endDate = "" then ["End date is required"] else [])

/-- Absence-section submit. -/
def absencesSubmit (fv : AbsenceForm) (net : Net AbsenceApiRow)
    (rows : List AbsenceView) : SubmitResult AbsenceView :=
  genericSubmit (absenceIssues fv) mapAbsenceCreated
    "Unable to create absence record. Please try again." net rows

/-- Draft values of the new-ticket form. -/
structure TicketForm where
  title : String
  owner : String
  status : String
  priority : String
deriving DecidableEq

/-- Required-field issues of the new-ticket form (IT module). -/
def ticketIssues (fv : TicketForm) : List String :=
  (if (jsTrim fv.title).isEmpty then ["Title is required"] else []) ++
  (if (jsTrim fv.owner).isEmpty then ["Owner is required"] else [])

/-- Tickets-section submit. -/
def ticketsSubmit (fv : TicketForm) (net : Net ItTicketApiRow)
    (rows : List ItTicketApiRow) : SubmitResult ItTicketApiRow :=
  genericSubmit (ticketIssues fv) mapTicketCreated
    "Unable to create ticket. Please try again." net rows

/-- The filter predicate of `filteredEmployees` (`HR.tsx` 260–264):
case-insensitive substring match of the search term against the
displayed name, department, or position. -/
def empMatches (term : String) (e : EmployeeView) : Bool :=
  jsIncludes (jsLower e.name) (jsLower term) ||
  jsIncludes (jsLower e.department) (jsLower term) ||
  jsIncludes (jsLower e.position) (jsLower term)

/-- `filteredEmployees`: the rows the employee table displays for a given
search term. -/
def filteredEmployees (term : String) (emps : List EmployeeView) : List EmployeeView :=
  emps.filter (empMatches term)

-- sanity examples (kept as plain examples, they are part of the development)
example : emailRegexOk "a@b.com" = true := by decide
example : emailRegexOk "a@b" = false := by decide
example : emailRegexOk "ab.com" = false := by decide
example : emailRegexOk "a@.com" = false := by decide
example : emailRegexOk "a@b." = false := by decide
example : emailRegexOk "a@x.a.b" = true := by decide
example : jsTrim "  x " = "x" := by decide
example : jsUpperFirst "active" = "Active" := by decide
example : jsIncludes "Hello World" "lo w" = false := by decide
example : jsIncludes (jsLower "Hello World") (jsLower "LO W") = true := by decide

/-! ## Supporting lemmas for the session lifecycle -/

lemma presentNE_some_iff (s : String) : presentNE (some s) = true ↔ s ≠ "" := by
  constructor
  · intro h hs
    subst hs
    exact absurd h (by decide)
  · intro h
    show (!s.isEmpty) = true
    cases he : s.isEmpty with
    | false => rfl
    | true => exact absurd ((String.isEmpty_iff s).mp he) h

lemma encodeUserData_ne (e : String) : encodeUserData e ≠ "" := by
  intro h
  have hl := congrArg String.length h
  have h1 : ("\x7b\"email\":\"" : String).length = 10 := rfl
  have h2 : ("\"\x7d" : String).length = 2 := rfl
  have h3 : ("" : String).length = 0 := rfl
  rw [encodeUserData, String.length_append, String.length_append, h1, h2, h3] at hl
  omega

lemma storedToken_ne (t : Option String) (h : t ≠ some "") : storedToken t ≠ "" := by
  cases t with
  | none => simp [storedToken]
  | some s =>
    simp only [storedToken]
    intro hs
    exact h (by rw [hs])

lemma presentNE_pair (t : Option String) (ht : t ≠ some "") (e : String) :
    (presentNE (some (storedToken t)) && presentNE (some (encodeUserData e))) = true := by
  rw [Bool.and_eq_true, presentNE_some_iff, presentNE_some_iff]
  exact ⟨storedToken_ne t ht, encodeUserData_ne e⟩

lemma login_invalid (e p : String) (net : Net AuthBody) (w : World)
    (h : e = "" ∨ p = "") : login e p net w = ⟨false, w, 0⟩ := by
  unfold login; rw [if_pos h]

lemma login_bademail (e p : String) (net : Net AuthBody) (w : World)
    (h1 : ¬ (e = "" ∨ p = "")) (h2 : ¬ emailRegexOk e = true) :
    login e p net w = ⟨false, w, 0⟩ := by
  unfold login; rw [if_neg h1, if_pos h2]

lemma login_valid_success (e p : String) (b : AuthBody) (w : World)
    (h1 : ¬ (e = "" ∨ p = "")) (h2 : emailRegexOk e = true) :
    login e p (Net.resp true (some b)) w =
      ⟨true,
       ⟨⟨some (storedToken b.token),
         some (encodeUserData (effEmail b.userEmail e))⟩, true,
        some ⟨effEmail b.userEmail e⟩⟩, 1⟩ := by
  simp [login, h1, h2]

lemma login_cases (e p : String) (net : Net AuthBody) (w : World) :
    (∃ b, net = Net.resp true (some b) ∧ ¬ (e = "" ∨ p = "") ∧ emailRegexOk e = true)
    ∨ ((login e p net w).ret = false ∧ (login e p net w).world = w) := by
  by_cases h1 : e = "" ∨ p = ""
  · right; rw [login_invalid e p net w h1]; exact ⟨rfl, rfl⟩
  by_cases h2 : emailRegexOk e = true
  · cases net with
    | err =>
      right; constructor <;> simp [login, h1, h2]
    | resp ok body =>
      by_cases h3 : ok = true
      · subst h3
        cases body with
        | none => right; constructor <;> simp [login, h1, h2]
        | some b => left; exact ⟨b, rfl, h1, h2⟩
      · right; constructor <;> simp [login, h1, h2, h3]
  · right; rw [login_bademail e p net w h1 h2]; exact ⟨rfl, rfl⟩

lemma signup_client_fail (e p : String) (n1 n2 : Net AuthBody) (w : World)
    (h : ¬ signupClientOk e p) : signup e p n1 n2 w = ⟨false, w, 0⟩ := by
  unfold signupClientOk loginClientOk at h
  unfold signup
  by_cases h1 : e = "" ∨ p = ""
  · rw [if_pos h1]
  rw [if_neg h1]
  by_cases h2 : emailRegexOk e = true
  · rw [if_neg (not_not_intro h2)]
    by_cases h3 : p.length < 8
    · rw [if_pos h3]
    rw [if_neg h3]
    by_cases h4 : ¬ hasUpper p = true ∨ ¬ hasLower p = true ∨ ¬ hasDigit p = true
    · rw [if_pos h4]
    · exact absurd ⟨⟨h1, h2⟩, h3, h4⟩ h
  · rw [if_pos h2]

lemma signup_valid_success (e p : String) (rb lb : AuthBody) (w : World)
    (h : signupClientOk e p) :
    signup e p (Net.resp true (some rb)) (Net.resp true (some lb)) w =
      ⟨true,
       ⟨⟨some (storedToken lb.token),
         some (encodeUserData (effEmail rb.userEmail e))⟩, true,
        some ⟨effEmail rb.userEmail e⟩⟩, 2⟩ := by
  obtain ⟨⟨h1, h2⟩, h3, h4⟩ := h
  have h4c := h4
  push_neg at h4c
  obtain ⟨hU, hL, hD⟩ := h4c
  simp [signup, h1, h2, h3, hU, hL, hD]

lemma signup_login_fail (e p : String) (rb : AuthBody) (ok2 : Bool)
    (body2 : Option AuthBody) (w : World)
    (h : signupClientOk e p) (hfail : ¬ (ok2 = true ∧ ∃ lb, body2 = some lb)) :
    signup e p (Net.resp true (some rb)) (Net.resp ok2 body2) w = ⟨false, w, 2⟩ := by
  obtain ⟨⟨h1, h2⟩, h3, h4⟩ := h
  have h4c := h4
  push_neg at h4c
  obtain ⟨hU, hL, hD⟩ := h4c
  by_cases hok2 : ok2 = true
  · subst hok2
    cases body2 with
    | none => simp [signup, h1, h2, h3, hU, hL, hD]
    | some lb => exact absurd ⟨rfl, lb, rfl⟩ hfail
  · simp [signup, h1, h2, h3, hU, hL, hD, hok2]

lemma signup_cases (e p : String) (n1 n2 : Net AuthBody) (w : World) :
    (∃ rb lb, n1 = Net.resp true (some rb) ∧ n2 = Net.resp true (some lb)
       ∧ signupClientOk e p)
    ∨ ((signup e p n1 n2 w).ret = false ∧ (signup e p n1 n2 w).world = w) := by
  by_cases hc : signupClientOk e p
  · obtain ⟨⟨h1, h2⟩, h3, h4⟩ := hc
    have h4c := h4
    push_neg at h4c
    obtain ⟨hU, hL, hD⟩ := h4c
    cases n1 with
    | err =>
      right; constructor <;> simp [signup, h1, h2, h3, hU, hL, hD]
    | resp ok1 body1 =>
      by_cases hok1 : ok1 = true
      · subst hok1
        cases body1 with
        | none => right; constructor <;> simp [signup, h1, h2, h3, hU, hL, hD]
        | some rb =>
          cases n2 with
          | err => right; constructor <;> simp [signup, h1, h2, h3, hU, hL, hD]
          | resp ok2 body2 =>
            by_cases hok2 : ok2 = true
            · subst hok2
              cases body2 with
              | none => right; constructor <;> simp [signup, h1, h2, h3, hU, hL, hD]
              | some lb =>
                left; exact ⟨rb, lb, rfl, rfl, ⟨h1, h2⟩, h3, h4⟩
            · right
              rw [signup_login_fail e p rb ok2 body2 w ⟨⟨h1, h2⟩, h3, h4⟩
                (by intro hcon; exact hok2 hcon.1)]
              exact ⟨rfl, rfl⟩
      · right; constructor <;> simp [signup, h1, h2, h3, hU, hL, hD, hok1]
  · right; rw [signup_client_fail e p n1 n2 w hc]; exact ⟨rfl, rfl⟩
lemma autoLogin_cases (cfg : Option TestAccount) (net : Net AuthBody) (w : World) :
    autoLogin cfg net w = w ∨
    ∃ acct b, cfg = some acct ∧ net = Net.resp true (some b) ∧
      autoLogin cfg net w =
        ⟨⟨some (storedToken b.token),
          some (encodeUserData (effEmail b.userEmail acct.email))⟩,
         true, some ⟨effEmail b.userEmail acct.email⟩⟩ := by
  by_cases hs : (presentNE w.storage.userToken && presentNE w.storage.userData) = true
  · left; unfold autoLogin; rw [if_pos hs]
  cases cfg with
  | none => left; unfold autoLogin; rw [if_neg hs]
  | some acct =>
    by_cases he : acct.email = "" ∨ acct.password = ""
    · left; simp [autoLogin, hs, he]
    cases net with
    | err => left; simp [autoLogin, hs, he]
    | resp ok body =>
      by_cases hok : ok = true
      · subst hok
        cases body with
        | none => left; simp [autoLogin, hs, he]
        | some b =>
          right
          exact ⟨acct, b, rfl, rfl, by simp [autoLogin, hs, he]⟩
      · left; simp [autoLogin, hs, he, hok]

lemma autoLogin_success (acct : TestAccount) (b : AuthBody) (w : World)
    (hns : ¬ (presentNE w.storage.userToken && presentNE w.storage.userData) = true)
    (he : ¬ (acct.email = "" ∨ acct.password = "")) :
    autoLogin (some acct) (Net.resp true (some b)) w =
      ⟨⟨some (storedToken b.token),
        some (encodeUserData (effEmail b.userEmail acct.email))⟩,
       true, some ⟨effEmail b.userEmail acct.email⟩⟩ := by
  simp [autoLogin, hns, he]

/-- C1 (counterexample): a 2xx login response whose `token` field is the
empty string makes the code set `isAuthenticated` to `true` while the
persisted `userToken` value is empty, so the spec's biconditional fails
after this `login` operation. -/
theorem spec_c1_counterexample :
    ¬ sessionInv (login "user@example.com" "hunter2A"
      (Net.resp true (some ⟨some "", some "user@example.com"⟩))
      (initWorld ⟨none, none⟩)).world := by decide

/-- C1 (amended): after bootstrap, logout and the storage-change handler
unconditionally, and after `login`/`signup`/`autoLogin` whenever the
consumed 2xx response does not carry an empty-string `token`,
`isAuthenticated` is true iff both persisted keys are present and
non-empty. -/
theorem spec_c1_theorem :
    (∀ st, sessionInv (initWorld st))
  ∧ (∀ w, sessionInv (logout w))
  ∧ (∀ w, sessionInv (handleStorageChange w))
  ∧ (∀ e p net w, sessionInv w → tokenOkNet net →
      sessionInv (login e p net w).world)
  ∧ (∀ e p n1 n2 w, sessionInv w → tokenOkNet n2 →
      sessionInv (signup e p n1 n2 w).world)
  ∧ (∀ cfg net w, sessionInv w → tokenOkNet net →
      sessionInv (autoLogin cfg net w)) := by
  refine ⟨fun st => rfl, fun w => rfl, fun w => rfl, ?_, ?_, ?_⟩
  · intro e p net w hw htok
    rcases login_cases e p net w with ⟨b, hnet, h1, h2⟩ | ⟨_, hworld⟩
    · subst hnet
      rw [login_valid_success e p b w h1 h2]
      exact (presentNE_pair b.token (htok b rfl) _).symm
    · rw [hworld]; exact hw
  · intro e p n1 n2 w hw htok
    rcases signup_cases e p n1 n2 w with ⟨rb, lb, hn1, hn2, hc⟩ | ⟨_, hworld⟩
    · subst hn1; subst hn2
      rw [signup_valid_success e p rb lb w hc]
      exact (presentNE_pair lb.token (htok lb rfl) _).symm
    · rw [hworld]; exact hw
  · intro cfg net w hw htok
    rcases autoLogin_cases cfg net w with hsame | ⟨acct, b, hcfg, hnet, heq⟩
    · rw [hsame]; exact hw
    · subst hnet
      rw [heq]
      exact (presentNE_pair b.token (htok b rfl) _).symm

/-- C1 (witness): the amended invariant at a concrete successful login
from empty storage. -/
theorem spec_c1_witness :
    sessionInv (login "a@b.com" "Secret1x"
      (Net.resp true (some ⟨some "t1", some "a@b.com"⟩))
      (initWorld ⟨none, none⟩)).world :=
  spec_c1_theorem.2.2.2.1 "a@b.com" "Secret1x"
    (Net.resp true (some ⟨some "t1", some "a@b.com"⟩))
    (initWorld ⟨none, none⟩)
    (by decide)
    (by
      intro b h
      injection h with h1 h2
      injection h2 with h3
      subst h3
      decide)

/-- C2: a login that passes client-side validation and receives a 2xx
response `(token := "t1", user.email := "a@b.com")` returns `true`,
persists token `"t1"` and the user record `(email := "a@b.com")`, and
flips `isAuthenticated` to `true`. -/
theorem spec_c2_theorem (e p : String) (w : World)
    (h1 : ¬ (e = "" ∨ p = "")) (h2 : emailRegexOk e = true) :
    login e p (Net.resp true (some ⟨some "t1", some "a@b.com"⟩)) w =
      ⟨true,
       ⟨⟨some "t1", some (encodeUserData "a@b.com")⟩, true, some ⟨"a@b.com"⟩⟩,
       1⟩ := by
  rw [login_valid_success e p _ w h1 h2]
  rfl

/-- C2 (witness): the login postcondition at concrete inputs. -/
theorem spec_c2_witness :
    login "a@b.com" "Secret1x"
      (Net.resp true (some ⟨some "t1", some "a@b.com"⟩)) (initWorld ⟨none, none⟩) =
      ⟨true,
       ⟨⟨some "t1", some (encodeUserData "a@b.com")⟩, true, some ⟨"a@b.com"⟩⟩,
       1⟩ :=
  spec_c2_theorem "a@b.com" "Secret1x" (initWorld ⟨none, none⟩) (by decide) (by decide)

/-- C3: whenever `login` or `signup` returns `false` — failed client-side
validation, non-success HTTP status, or a caught network/parse failure —
the storage and session state are unchanged, and in the client-side
validation cases no network request is issued at all (the totality of the
model mirrors the source's `try`/`catch`: no exception escapes). -/
theorem spec_c3_theorem :
    (∀ e p net w, (login e p net w).ret = false → (login e p net w).world = w)
  ∧ (∀ e p n1 n2 w, (signup e p n1 n2 w).ret = false → (signup e p n1 n2 w).world = w)
  ∧ (∀ e p net w, ¬ loginClientOk e p → login e p net w = ⟨false, w, 0⟩)
  ∧ (∀ e p n1 n2 w, ¬ signupClientOk e p → signup e p n1 n2 w = ⟨false, w, 0⟩)
  ∧ (∀ e p w, (login e p Net.err w).ret = false)
  ∧ (∀ e p body w, (login e p (Net.resp false body) w).ret = false)
  ∧ (∀ e p w, (login e p (Net.resp true none) w).ret = false)
  ∧ (∀ e p n2 w, (signup e p Net.err n2 w).ret = false)
  ∧ (∀ e p body n2 w, (signup e p (Net.resp false body) n2 w).ret = false)
  ∧ (∀ e p n2 w, (signup e p (Net.resp true none) n2 w).ret = false)
  ∧ (∀ e p rb w, (signup e p (Net.resp true (some rb)) Net.err w).ret = false)
  ∧ (∀ e p rb body w,
      (signup e p (Net.resp true (some rb)) (Net.resp false body) w).ret = false)
  ∧ (∀ e p rb w,
      (signup e p (Net.resp true (some rb)) (Net.resp true none) w).ret = false) := by
  refine ⟨?_, ?_, ?_, ?_, ?_, ?_, ?_, ?_, ?_, ?_, ?_, ?_, ?_⟩
  · intro e p net w hret
    rcases login_cases e p net w with ⟨b, hnet, h1, h2⟩ | ⟨_, hworld⟩
    · subst hnet
      rw [login_valid_success e p b w h1 h2] at hret
      simp at hret
    · exact hworld
  · intro e p n1 n2 w hret
    rcases signup_cases e p n1 n2 w with ⟨rb, lb, hn1, hn2, hc⟩ | ⟨_, hworld⟩
    · subst hn1; subst hn2
      rw [signup_valid_success e p rb lb w hc] at hret
      simp at hret
    · exact hworld
  · intro e p net w hv
    by_cases h1 : e = "" ∨ p = ""
    · exact login_invalid e p net w h1
    · exact login_bademail e p net w h1 (fun h2 => hv ⟨h1, h2⟩)
  · intro e p n1 n2 w hv
    exact signup_client_fail e p n1 n2 w hv
  · intro e p w
    rcases login_cases e p Net.err w with ⟨b, hnet, _, _⟩ | ⟨hret, _⟩
    · simp at hnet
    · exact hret
  · intro e p body w
    rcases login_cases e p (Net.resp false body) w with ⟨b, hnet, _, _⟩ | ⟨hret, _⟩
    · simp at hnet
    · exact hret
  · intro e p w
    rcases login_cases e p (Net.resp true none) w with ⟨b, hnet, _, _⟩ | ⟨hret, _⟩
    · simp at hnet
    · exact hret
  · intro e p n2 w
    rcases signup_cases e p Net.err n2 w with ⟨rb, lb, hn1, _, _⟩ | ⟨hret, _⟩
    · simp at hn1
    · exact hret
  · intro e p body n2 w
    rcases signup_cases e p (Net.resp false body) n2 w with ⟨rb, lb, hn1, _, _⟩ | ⟨hret, _⟩
    · simp at hn1
    · exact hret
  · intro e p n2 w
    rcases signup_cases e p (Net.resp true none) n2 w with ⟨rb, lb, hn1, _, _⟩ | ⟨hret, _⟩
    · simp at hn1
    · exact hret
  · intro e p rb w
    rcases signup_cases e p (Net.resp true (some rb)) Net.err w with
      ⟨rb2, lb, _, hn2, _⟩ | ⟨hret, _⟩
    · simp at hn2
    · exact hret
  · intro e p rb body w
    rcases signup_cases e p (Net.resp true (some rb)) (Net.resp false body) w with
      ⟨rb2, lb, _, hn2, _⟩ | ⟨hret, _⟩
    · simp at hn2
    · exact hret
  · intro e p rb w
    rcases signup_cases e p (Net.resp true (some rb)) (Net.resp true none) w with
      ⟨rb2, lb, _, hn2, _⟩ | ⟨hret, _⟩
    · simp at hn2
    · exact hret

/-- C3 (witness): malformed-email login at concrete inputs — returns
false, leaves the world unchanged, issues no request. -/
theorem spec_c3_witness :
    login "no-at-sign" "Secret1x" Net.err (initWorld ⟨none, none⟩) =
      ⟨false, initWorld ⟨none, none⟩, 0⟩ :=
  spec_c3_theorem.2.2.1 "no-at-sign" "Secret1x" Net.err (initWorld ⟨none, none⟩)
    (by decide)

/-- C8: when registration gets a 2xx (with a parsed body) but the
immediately following login request returns a non-success status, signup
returns `false`, persists nothing, and leaves the session state
unchanged (after two requests). -/
theorem spec_c8_theorem (e p : String) (rb : AuthBody) (lbody : Option AuthBody)
    (w : World) (h : signupClientOk e p) :
    signup e p (Net.resp true (some rb)) (Net.resp false lbody) w = ⟨false, w, 2⟩ :=
  signup_login_fail e p rb false lbody w h (by rintro ⟨hc, _⟩; simp at hc)

/-- C8 (witness): the secondary-login failure at concrete inputs. -/
theorem spec_c8_witness :
    signup "a@b.com" "Passw0rd" (Net.resp true (some ⟨none, some "a@b.com"⟩))
      (Net.resp false none) (initWorld ⟨none, none⟩) =
      ⟨false, initWorld ⟨none, none⟩, 2⟩ :=
  spec_c8_theorem "a@b.com" "Passw0rd" ⟨none, some "a@b.com"⟩ none
    (initWorld ⟨none, none⟩) (by decide)

/-- C9: in every success path that persists a session (login, signup and
auto-login), the persisted user record carries the response's
`user.email` when that is present and non-empty, and otherwise falls
back to the email submitted in the request (for auto-login, the testing
account's email). -/
theorem spec_c9_theorem :
    (∀ ue e, (ue = none ∨ ue = some "") → effEmail ue e = e)
  ∧ (∀ u e, u ≠ "" → effEmail (some u) e = u)
  ∧ (∀ e p b w, ¬ (e = "" ∨ p = "") → emailRegexOk e = true →
      (login e p (Net.resp true (some b)) w).world.storage.userData =
        some (encodeUserData (effEmail b.userEmail e)) ∧
      (login e p (Net.resp true (some b)) w).world.user =
        some ⟨effEmail b.userEmail e⟩)
  ∧ (∀ e p rb lb w, signupClientOk e p →
      (signup e p (Net.resp true (some rb)) (Net.resp true (some lb)) w).world.storage.userData =
        some (encodeUserData (effEmail rb.userEmail e)) ∧
      (signup e p (Net.resp true (some rb)) (Net.resp true (some lb)) w).world.user =
        some ⟨effEmail rb.userEmail e⟩)
  ∧ (∀ acct b w,
      ¬ (presentNE w.storage.userToken && presentNE w.storage.userData) = true →
      ¬ (acct.email = "" ∨ acct.password = "") →
      (autoLogin (some acct) (Net.resp true (some b)) w).storage.userData =
        some (encodeUserData (effEmail b.userEmail acct.email)) ∧
      (autoLogin (some acct) (Net.resp true (some b)) w).user =
        some ⟨effEmail b.userEmail acct.email⟩) := by
  refine ⟨?_, ?_, ?_, ?_, ?_⟩
  · intro ue e h
    rcases h with h | h <;> subst h <;> rfl
  · intro u e h
    simp [effEmail, h]
  · intro e p b w h1 h2
    rw [login_valid_success e p b w h1 h2]
    exact ⟨rfl, rfl⟩
  · intro e p rb lb w hc
    rw [signup_valid_success e p rb lb w hc]
    exact ⟨rfl, rfl⟩
  · intro acct b w hns he
    rw [autoLogin_success acct b w hns he]
    exact ⟨rfl, rfl⟩

/-- C9 (witness): an absent `user.email` falls back to the submitted
email at concrete inputs. -/
theorem spec_c9_witness :
    (login "a@b.com" "Secret1x" (Net.resp true (some ⟨some "t1", none⟩))
        (initWorld ⟨none, none⟩)).world.storage.userData =
      some (encodeUserData "a@b.com") :=
  (spec_c9_theorem.2.2.1 "a@b.com" "Secret1x" ⟨some "t1", none⟩
    (initWorld ⟨none, none⟩) (by decide) (by decide)).1

/-! ## Supporting lemmas for the data sections -/

lemma mathRoundDiv_exact (k : Int) : mathRoundDiv (86400000 * k) 86400000 = k := by
  unfold mathRoundDiv
  omega

lemma dateMs_eq (s : String) (y m d : Nat) (h : parseIsoDate s = some (y, m, d)) :
    dateMs s = some (86400000 * ((civilDays y m d : Int) - (civilDays 1970 1 1 : Int))) := by
  rw [dateMs, h]
  rfl

lemma absence_days_eq (r : AbsenceApiRow) (y1 m1 d1 y2 m2 d2 : Nat)
    (h1 : parseIsoDate r.startDate = some (y1, m1, d1))
    (h2 : parseIsoDate r.endDate = some (y2, m2, d2)) :
    (mapAbsence r).days =
      some (max 1 ((civilDays y2 m2 d2 : Int) - (civilDays y1 m1 d1 : Int) + 1)) := by
  simp only [mapAbsence]
  rw [dateMs_eq r.startDate y1 m1 d1 h1, dateMs_eq r.endDate y2 m2 d2 h2]
  show some (max 1 (mathRoundDiv
      (86400000 * ((civilDays y2 m2 d2 : Int) - (civilDays 1970 1 1 : Int)) -
       86400000 * ((civilDays y1 m1 d1 : Int) - (civilDays 1970 1 1 : Int))) 86400000 + 1)) = _
  have hd : 86400000 * ((civilDays y2 m2 d2 : Int) - (civilDays 1970 1 1 : Int)) -
      86400000 * ((civilDays y1 m1 d1 : Int) - (civilDays 1970 1 1 : Int)) =
      86400000 * ((civilDays y2 m2 d2 : Int) - (civilDays y1 m1 d1 : Int)) := by ring
  rw [hd, mathRoundDiv_exact]

lemma headMatch_iff (n : List Char) : ∀ h : List Char,
    headMatch n h = true ↔ ∃ t, h = n ++ t := by
  induction n with
  | nil =>
    intro h
    exact ⟨fun _ => ⟨h, rfl⟩, fun _ => rfl⟩
  | cons a as ih =>
    intro h
    cases h with
    | nil =>
      simp [headMatch]
    | cons b bs =>
      simp only [headMatch, Bool.and_eq_true, beq_iff_eq, ih]
      constructor
      · rintro ⟨rfl, t, rfl⟩
        exact ⟨t, rfl⟩
      · rintro ⟨t, ht⟩
        injection ht with hb hbs
        exact ⟨hb.symm, t, hbs⟩

lemma occursIn_iff : ∀ (h n : List Char),
    occursIn n h = true ↔ ∃ pre post, h = pre ++ n ++ post := by
  intro h
  induction h with
  | nil =>
    intro n
    simp only [occursIn, headMatch_iff]
    constructor
    · rintro ⟨t, ht⟩
      obtain ⟨hn, htt⟩ := (List.append_eq_nil).mp ht.symm
      exact ⟨[], [], by simp [hn]⟩
    · rintro ⟨pre, post, hp⟩
      obtain ⟨h3, h4⟩ := (List.append_eq_nil).mp hp.symm
      obtain ⟨h5, h6⟩ := (List.append_eq_nil).mp h3
      exact ⟨[], by simp [h6]⟩
  | cons c rest ih =>
    intro n
    simp only [occursIn, Bool.or_eq_true, headMatch_iff, ih]
    constructor
    · rintro (⟨t, ht⟩ | ⟨pre, post, hp⟩)
      · exact ⟨[], t, by simpa using ht⟩
      · exact ⟨c :: pre, post, by simp [hp]⟩
    · rintro ⟨pre, post, hp⟩
      cases pre with
      | nil => exact Or.inl ⟨post, by simpa using hp⟩
      | cons x xs =>
        injection hp with h1 h2
        exact Or.inr ⟨xs, post, h2⟩

lemma occursIn_nil_needle (l : List Char) : occursIn [] l = true := by
  cases l with
  | nil => rfl
  | cons c rest => simp [occursIn, headMatch]

/-- C4 (counterexample): onboarding rows are not title-cased — status
`"not_started"` is displayed as `"Pending"`, not as the title-cased
`"Not_started"` — so the mapping claim fails for a fetched onboarding
row. -/
theorem spec_c4_counterexample :
    (mapOnboarding ⟨7, 3, "Engineer", "not_started", none, none⟩).status ≠
      jsUpperFirst "not_started" := by decide

/-- C4 (amended): display rows concatenate the employee name parts with a
single space, title-case the status enum in the employee, recruitment
and absence sections (the onboarding section instead maps statuses
through an explicit table: completed→Completed, in_progress→In Progress,
not_started→Pending), truncate ISO timestamps to their first 10
characters, use the same mapping for created rows as for fetched rows,
and compute the absence day count as
`max 1 (round ((end − start) / 86400000) + 1)` — an inclusive calendar
day difference; start `2024-01-01` with end `2024-01-03` yields 3 days
and equal dates yield 1 day. -/
theorem spec_c4_theorem :
    (∀ r : EmployeeApiRow, (mapEmployee r).name = r.firstName ++ " " ++ r.lastName)
  ∧ (∀ r : EmployeeApiRow, (mapEmployee r).status = jsUpperFirst r.status)
  ∧ (∀ (r : EmployeeApiRow) (s : String), r.hiredAt = some s →
      (mapEmployee r).joinDate = s.take 10)
  ∧ (∀ r : JobPostingApiRow, (mapJobPosting r).status = jsUpperFirst r.status ∧
      (mapJobPosting r).postedDate = r.createdAt.take 10)
  ∧ (∀ r : AbsenceApiRow, (mapAbsence r).type = jsUpperFirst r.type ∧
      (mapAbsence r).status = jsUpperFirst r.status ∧
      (mapAbsence r).startDate = r.startDate.take 10 ∧
      (mapAbsence r).endDate = r.endDate.take 10)
  ∧ (∀ r : OnboardingApiRow,
      (r.status = "completed" → (mapOnboarding r).status = "Completed") ∧
      (r.status = "in_progress" → (mapOnboarding r).status = "In Progress") ∧
      (r.status = "not_started" → (mapOnboarding r).status = "Pending"))
  ∧ (∀ r, mapEmployeeCreated r = mapEmployee r)
  ∧ (∀ r, mapAbsenceCreated r = mapAbsence r)
  ∧ (∀ (r : AbsenceApiRow) (y1 m1 d1 y2 m2 d2 : Nat),
      parseIsoDate r.startDate = some (y1, m1, d1) →
      parseIsoDate r.endDate = some (y2, m2, d2) →
      (mapAbsence r).days =
        some (max 1 ((civilDays y2 m2 d2 : Int) - (civilDays y1 m1 d1 : Int) + 1)))
  ∧ (mapAbsence ⟨1, 2, "vacation", "requested", "2024-01-01", "2024-01-03", "", ""⟩).days
      = some 3
  ∧ (mapAbsence ⟨1, 2, "vacation", "requested", "2024-05-07", "2024-05-07", "", ""⟩).days
      = some 1 := by
  refine ⟨?_, ?_, ?_, ?_, ?_, ?_, ?_, ?_, ?_, ?_, ?_⟩
  · intro r; simp only [mapEmployee]
  · intro r; simp only [mapEmployee]
  · intro r s h
    simp [mapEmployee, h]
  · intro r
    constructor <;> simp only [mapJobPosting]
  · intro r
    refine ⟨?_, ?_, ?_, ?_⟩ <;> simp only [mapAbsence]
  · intro r
    refine ⟨?_, ?_, ?_⟩ <;> intro h <;> simp only [mapOnboarding] <;> rw [h] <;> decide
  · intro r; simp only [mapEmployeeCreated, mapEmployee]
  · intro r; simp only [mapAbsenceCreated, mapAbsence]
  · exact absence_days_eq
  · decide
  · decide

/-- C4 (witness): the day-count characterization at a concrete parsed
row: 2024-01-01 to 2024-01-31 is 31 inclusive days. -/
theorem spec_c4_witness :
    (mapAbsence ⟨5, 4, "sick", "approved", "2024-01-01", "2024-01-31", "", ""⟩).days =
      some (max 1 ((civilDays 2024 1 31 : Int) - (civilDays 2024 1 1 : Int) + 1)) :=
  spec_c4_theorem.2.2.2.2.2.2.2.2.1
    ⟨5, 4, "sick", "approved", "2024-01-01", "2024-01-31", "", ""⟩
    2024 1 1 2024 1 31 (by decide) (by decide)

/-- C5 (counterexample): in the absence form the date fields are checked
only for the exact empty string, so a whitespace-only (non-empty) start
date is not blocked: the issue list is empty and the submit issues a
network request. -/
theorem spec_c5_counterexample :
    absenceIssues ⟨"1", "vacation", "requested", " ", "2024-01-02"⟩ = [] ∧
    (absencesSubmit ⟨"1", "vacation", "requested", " ", "2024-01-02"⟩
      (Net.resp true (some ⟨9, 1, "vacation", "requested", " ", "2024-01-02", "", ""⟩))
      []).requests = 1 := by decide

/-- C5 (amended): if any required text field is empty or whitespace-only
(after `trim`), or a required date field of the absence form is the
empty string, submission is blocked: the issue strings are joined with
`", "` and shown, the list is unchanged, and no network request is
issued; the absence form's date fields are checked only for exact
emptiness.  Empty `lastName` yields "Last name is required". -/
theorem spec_c5_theorem :
    (∀ (ρ ν : Type) (issues : List String) (f : ρ → ν) (msg : String)
       (net : Net ρ) (rows : List ν), issues ≠ [] →
       genericSubmit issues f msg net rows =
         ⟨rows, some (String.intercalate ", " issues), true, 0⟩)
  ∧ (∀ fv : EmployeeForm, employeeIssues fv = [] ↔
      ((jsTrim fv.firstName).isEmpty = false ∧ (jsTrim fv.lastName).isEmpty = false ∧
       (jsTrim fv.email).isEmpty = false ∧ (jsTrim fv.department).isEmpty = false ∧
       (jsTrim fv.position).isEmpty = false))
  ∧ (∀ fv : BenefitForm, benefitIssues fv = [] ↔
      ((jsTrim fv.name).isEmpty = false ∧ (jsTrim fv.type).isEmpty = false))
  ∧ (∀ fv : OnboardingForm, onboardingIssues fv = [] ↔
      (¬ ((jsTrim fv.employeeId).isEmpty = true ∨ jsNumberIsNaN fv.employeeId = true) ∧
       (jsTrim fv.position).isEmpty = false))
  ∧ (∀ fv : JobPostingForm, jobPostingIssues fv = [] ↔
      ((jsTrim fv.title).isEmpty = false ∧ (jsTrim fv.department).isEmpty = false))
  ∧ (∀ fv : AbsenceForm, absenceIssues fv = [] ↔
      (¬ ((jsTrim fv.employeeId).isEmpty = true ∨ jsNumberIsNaN fv.employeeId = true) ∧
       fv.startDate ≠ "" ∧ fv.endDate ≠ ""))
  ∧ (∀ fv : TicketForm, ticketIssues fv = [] ↔
      ((jsTrim fv.title).isEmpty = false ∧ (jsTrim fv.owner).isEmpty = false))
  ∧ (∀ fv : EmployeeForm, (jsTrim fv.lastName).isEmpty = true →
      "Last name is required" ∈ employeeIssues fv) := by
  refine ⟨?_, ?_, ?_, ?_, ?_, ?_, ?_, ?_⟩
  · intro ρ ν issues f msg net rows h
    unfold genericSubmit
    rw [if_pos h]
  · intro fv
    cases h1 : (jsTrim fv.firstName).isEmpty <;>
      cases h2 : (jsTrim fv.lastName).isEmpty <;>
      cases h3 : (jsTrim fv.email).isEmpty <;>
      cases h4 : (jsTrim fv.department).isEmpty <;>
      cases h5 : (jsTrim fv.position).isEmpty <;>
      simp [employeeIssues, h1, h2, h3, h4, h5]
  · intro fv
    cases h1 : (jsTrim fv.name).isEmpty <;>
      cases h2 : (jsTrim fv.type).isEmpty <;>
      simp [benefitIssues, h1, h2]
  · intro fv
    by_cases hid : (jsTrim fv.employeeId).isEmpty = true ∨ jsNumberIsNaN fv.employeeId = true <;>
      cases h2 : (jsTrim fv.position).isEmpty <;>
      simp [onboardingIssues, hid, h2]
  · intro fv
    cases h1 : (jsTrim fv.title).isEmpty <;>
      cases h2 : (jsTrim fv.department).isEmpty <;>
      simp [jobPostingIssues, h1, h2]
  · intro fv
    by_cases hid : (jsTrim fv.employeeId).isEmpty = true ∨ jsNumberIsNaN fv.employeeId = true <;>
      by_cases h2 : fv.startDate = "" <;>
      by_cases h3 : fv.endDate = "" <;>
      simp [absenceIssues, hid, h2, h3]
  · intro fv
    cases h1 : (jsTrim fv.title).isEmpty <;>
      cases h2 : (jsTrim fv.owner).isEmpty <;>
      simp [ticketIssues, h1, h2]
  · intro fv h
    simp [employeeIssues, h]

/-- C5 (witness): empty last name at a concrete employee form produces
the "Last name is required" issue. -/
theorem spec_c5_witness :
    "Last name is required" ∈
      employeeIssues ⟨"Ann", "", "a@b.c", "Eng", "Dev", "active", ""⟩ :=
  spec_c5_theorem.2.2.2.2.2.2.2 ⟨"Ann", "", "a@b.c", "Eng", "Dev", "active", ""⟩
    (by decide)

/-- C6: a successful create appends exactly the mapped response row at
the end of the in-memory list (previous rows unchanged in content and
order), closes the form, and issues exactly one request (no list
re-fetch); the create handlers map the returned row with the same
mapping as the list load. -/
theorem spec_c6_theorem :
    (∀ (ρ ν : Type) (f : ρ → ν) (msg : String) (raw : ρ) (rows : List ν),
       genericSubmit [] f msg (Net.resp true (some raw)) rows =
         ⟨rows ++ [f raw], none, false, 1⟩)
  ∧ (∀ r, mapEmployeeCreated r = mapEmployee r)
  ∧ (∀ r, mapTicketCreated r = mapTicket r)
  ∧ (∀ r, mapAbsenceCreated r = mapAbsence r)
  ∧ (∀ fv raw rows, employeeIssues fv = [] →
       employeesSubmit fv (Net.resp true (some raw)) rows =
         ⟨rows ++ [mapEmployee raw], none, false, 1⟩)
  ∧ (∀ fv raw rows, ticketIssues fv = [] →
       ticketsSubmit fv (Net.resp true (some raw)) rows =
         ⟨rows ++ [mapTicket raw], none, false, 1⟩) := by
  refine ⟨?_, fun r => rfl, fun r => rfl, fun r => rfl, ?_, ?_⟩
  · intro ρ ν f msg raw rows
    rfl
  · intro fv raw rows h
    unfold employeesSubmit
    rw [h]
    rfl
  · intro fv raw rows h
    unfold ticketsSubmit
    rw [h]
    rfl

/-- C6 (witness): a concrete successful employee create appends the
mapped row, closes the form, and issues one request. -/
theorem spec_c6_witness :
    employeesSubmit ⟨"Ann", "Bell", "a@b.c", "Eng", "Dev", "active", ""⟩
      (Net.resp true (some ⟨3, "Ann", "Bell", "a@b.c", "Eng", "Dev", "active",
        some "2024-01-02"⟩)) [] =
      ⟨[] ++ [mapEmployee ⟨3, "Ann", "Bell", "a@b.c", "Eng", "Dev", "active",
        some "2024-01-02"⟩], none, false, 1⟩ :=
  spec_c6_theorem.2.2.2.2.1 ⟨"Ann", "Bell", "a@b.c", "Eng", "Dev", "active", ""⟩
    ⟨3, "Ann", "Bell", "a@b.c", "Eng", "Dev", "active", some "2024-01-02"⟩ []
    (by decide)

/-- C7: a section load reaches the error state with its generic message
exactly when the fetch failed for a reason other than abort; an abort
(unmount) is a silent no-op, so no error is ever shown for it.  Each of
the eight section loads instantiates the same generic load. -/
theorem spec_c7_theorem :
    (∀ (ρ ν : Type) (f : ρ → ν) (msg : String) (o : LoadOut ρ),
       ((genericLoad f msg o).error ≠ none ↔ ∃ k, o = .fail k ∧ k ≠ FetchFail.abort))
  ∧ (∀ (ρ ν : Type) (f : ρ → ν) (msg : String),
       genericLoad f msg (LoadOut.fail FetchFail.abort) =
         (⟨none, none, false⟩ : LoadResult ν))
  ∧ (∀ (ρ ν : Type) (f : ρ → ν) (msg : String) (k : FetchFail), k ≠ FetchFail.abort →
       genericLoad f msg (LoadOut.fail k) = (⟨none, some msg, false⟩ : LoadResult ν))
  ∧ (∀ o, employeesLoad o = genericLoad (List.map mapEmployee)
      "Unable to load employees. Please try again later." o)
  ∧ (∀ o, benefitsLoad o = genericLoad (List.map mapBenefit)
      "Unable to load benefits. Please try again later." o)
  ∧ (∀ o, onboardingLoad o = genericLoad (List.map mapOnboarding)
      "Unable to load onboarding data. Please try again later." o)
  ∧ (∀ o, recruitmentLoad o = genericLoad (List.map mapJobPosting)
      "Unable to load job postings. Please try again later." o)
  ∧ (∀ o, absencesLoad o = genericLoad (List.map mapAbsence)
      "Unable to load absences. Please try again later." o)
  ∧ (∀ o, itOverviewLoad o = genericLoad (fun x => x)
      "Unable to load IT overview. Please try again later." o)
  ∧ (∀ o, devicesLoad o = genericLoad (List.map mapDevice)
      "Unable to load devices. Please try again later." o)
  ∧ (∀ o, ticketsLoad o = genericLoad (List.map mapTicket)
      "Unable to load tickets. Please try again later." o) := by
  refine ⟨?_, ?_, ?_, fun o => rfl, fun o => rfl, fun o => rfl, fun o => rfl,
    fun o => rfl, fun o => rfl, fun o => rfl, fun o => rfl⟩
  · intro ρ ν f msg o
    cases o with
    | ok p => simp [genericLoad]
    | fail k =>
      cases k <;> simp [genericLoad]
  · intro ρ ν f msg
    rfl
  · intro ρ ν f msg k hk
    cases k with
    | abort => exact absurd rfl hk
    | http => rfl
    | parse => rfl
    | net => rfl

/-- C7 (witness): an aborted employee load sets no error, while an HTTP
failure sets the generic message. -/
theorem spec_c7_witness :
    genericLoad (List.map mapEmployee)
      "Unable to load employees. Please try again later."
      (LoadOut.fail FetchFail.http) =
      (⟨none, some "Unable to load employees. Please try again later.", false⟩ :
        LoadResult (List EmployeeView)) :=
  spec_c7_theorem.2.2.1 (List EmployeeApiRow) (List EmployeeView)
    (List.map mapEmployee) "Unable to load employees. Please try again later."
    FetchFail.http (by decide)

/-- C10: the employee table shows exactly the rows whose displayed name,
department or position contains the search term as a case-insensitive
substring; the empty term shows every row, and the email and status
fields play no role in the filter. -/
theorem spec_c10_theorem :
    (∀ emps, filteredEmployees "" emps = emps)
  ∧ (∀ term emps e, e ∈ filteredEmployees term emps ↔
      e ∈ emps ∧ empMatches term e = true)
  ∧ (∀ term e, empMatches term e = true ↔
      ((∃ pre post, (jsLower e.name).toList = pre ++ (jsLower term).toList ++ post) ∨
       (∃ pre post, (jsLower e.department).toList = pre ++ (jsLower term).toList ++ post) ∨
       (∃ pre post, (jsLower e.position).toList = pre ++ (jsLower term).toList ++ post)))
  ∧ (∀ term e1 e2, e1.name = e2.name → e1.department = e2.department →
      e1.position = e2.position → empMatches term e1 = empMatches term e2) := by
  refine ⟨?_, ?_, ?_, ?_⟩
  · intro emps
    apply List.filter_eq_self.mpr
    intro a _
    have h : ∀ s : String, jsIncludes s (jsLower "") = true :=
      fun s => occursIn_nil_needle s.toList
    simp [empMatches, h]
  · intro term emps e
    exact List.mem_filter
  · intro term e
    simp only [empMatches, jsIncludes, Bool.or_eq_true, occursIn_iff]
    exact or_assoc
  · intro term e1 e2 h1 h2 h3
    simp only [empMatches, h1, h2, h3]

/-- C10 (witness): two rows equal except for email and status filter
identically at a concrete term. -/
theorem spec_c10_witness :
    empMatches "dev" ⟨1, "Ann Bell", "Engineering", "Dev", "a@b.c", "Active", ""⟩ =
    empMatches "dev" ⟨2, "Ann Bell", "Engineering", "Dev", "zz@q.r", "Inactive", ""⟩ :=
  spec_c10_theorem.2.2.2 "dev"
    ⟨1, "Ann Bell", "Engineering", "Dev", "a@b.c", "Active", ""⟩
    ⟨2, "Ann Bell", "Engineering", "Dev", "zz@q.r", "Inactive", ""⟩ rfl rfl rfl
